import Mathlib

/-!
Shallow embedding of the `logs` service (src/logs/server.go) and its
migration utility (src/unnamed/part_002, second file), with theorems
checking the specification's claims against the code.

Modelling conventions:
* The SQL table `logs (timestamp, content)` is modelled as a `List LogEntry`
  in insertion order; `INSERT` appends, and `SELECT ... ORDER BY timestamp`
  is modelled as sorting the rows by timestamp.
* `time.Time` values are modelled as civil date-times already expressed in
  the fixed display timezone (`America/Toronto`); the code's `ts.In(tz)`
  conversion is a fixed monotone bijection from instants to local civil
  times and is therefore the identity in this model (DST transitions are
  not modelled; no claim depends on them).
* Database availability is modelled by explicit success flags
  (`fetchOk`, `insertOk`, a failure schedule for the migration), since the
  Go code observes storage failure only through returned errors.
-/

namespace Logs

/-- A civil date-time in the display timezone, to minute precision (the
finest granularity the rendering formats `2006-01-02` and `15:04` use). -/
structure DateTime where
  year : Nat
  month : Nat
  day : Nat
  hour : Nat
  minute : Nat
  deriving DecidableEq, Repr

/-- Linearizes a `DateTime` so that the numeric order of keys coincides with
chronological order (month < 13, day < 32, hour < 24, minute < 60). This is
the model of the absolute-instant ordering `ORDER BY timestamp` uses. -/
def tsKey (t : DateTime) : Nat :=
  (((t.year * 13 + t.month) * 32 + t.day) * 24 + t.hour) * 60 + t.minute

/-- Embeds `type log struct { ts time.Time; content string }`
(src/logs/server.go line 78). -/
structure LogEntry where
  ts : DateTime
  content : String
  deriving DecidableEq, Repr

/-- Short constructor for concrete date-times. -/
def mkDT (y mo d h mi : Nat) : DateTime :=
  { year := y, month := mo, day := d, hour := h, minute := mi }

/-- Short constructor for concrete entries. -/
def mkEntry (t : DateTime) (c : String) : LogEntry :=
  { ts := t, content := c }

/-- Descending (most recent first) comparison on entries, by timestamp. -/
def descLe (a b : LogEntry) : Prop := tsKey b.ts ≤ tsKey a.ts

/-- Ascending (oldest first) comparison on entries, by timestamp. -/
def ascLe (a b : LogEntry) : Prop := tsKey a.ts ≤ tsKey b.ts

instance : DecidableRel descLe := fun a b =>
  inferInstanceAs (Decidable (tsKey b.ts ≤ tsKey a.ts))

instance : DecidableRel ascLe := fun a b =>
  inferInstanceAs (Decidable (tsKey a.ts ≤ tsKey b.ts))

instance : IsTotal LogEntry descLe :=
  ⟨fun a b => Nat.le_total (tsKey b.ts) (tsKey a.ts)⟩

instance : IsTrans LogEntry descLe :=
  ⟨fun _ _ _ hab hbc => Nat.le_trans hbc hab⟩

instance : IsTotal LogEntry ascLe :=
  ⟨fun a b => Nat.le_total (tsKey a.ts) (tsKey b.ts)⟩

instance : IsTrans LogEntry ascLe :=
  ⟨fun _ _ _ hab hbc => Nat.le_trans hab hbc⟩

/-- Embeds `fetchLogs` (src/logs/server.go line 83): the SQL query
`SELECT timestamp, content FROM logs ORDER BY timestamp desc` returns every
row of the table sorted most-recent first; the Go loop collects the rows in
that order. -/
def fetchLogs (store : List LogEntry) : List LogEntry :=
  List.insertionSort descLe store

/-- Embeds `insertLog` (src/logs/server.go line 104): a single-row
`INSERT INTO logs (timestamp, content) VALUES ($1, $2)` appends a row. -/
def insertLog (store : List LogEntry) (l : LogEntry) : List LogEntry :=
  store ++ [l]

/-- `const timezone = "America/Toronto"` (src/logs/server.go line 112). -/
def timezone : String := "America/Toronto"

/-- Zero-pads to two digits, as Go's reference-layout components `01`, `02`,
`15`, `04` do. -/
def pad2 (n : Nat) : String :=
  if n < 10 then "0" ++ toString n else toString n

/-- Zero-pads to four digits, as Go's reference-layout year `2006` does. -/
def pad4 (n : Nat) : String :=
  if n < 10 then "000" ++ toString n
  else if n < 100 then "00" ++ toString n
  else if n < 1000 then "0" ++ toString n
  else toString n

/-- `ts.Format(dayFormat)` with `dayFormat = "2006-01-02"`. -/
def formatDay (t : DateTime) : String :=
  pad4 t.year ++ "-" ++ pad2 t.month ++ "-" ++ pad2 t.day

/-- `ts.Format(timeFormat)` with `timeFormat = "15:04"`. -/
def formatTime (t : DateTime) : String :=
  pad2 t.hour ++ ":" ++ pad2 t.minute

/-- Embeds the rendering loop of `getHandler` (src/logs/server.go lines
142-150): `prevday` starts at the zero value `0`; for each entry, when
`ts.Day()` (the day-of-month) differs from `prevday`, a `<p>` date line is
printed and `prevday` is updated; then the `<li>` line is printed. -/
def renderLogs : Nat → List LogEntry → List String
  | _, [] => []
  | prevday, l :: rest =>
    if l.ts.day ≠ prevday then
      ("<p>" ++ formatDay l.ts ++ "</p>") ::
        ("<li>" ++ formatTime l.ts ++ ": " ++ l.content ++ "</li>") ::
          renderLogs l.ts.day rest
    else
      ("<li>" ++ formatTime l.ts ++ ": " ++ l.content ++ "</li>") ::
        renderLogs prevday rest

/-- The apostrophe character (the Go source interpolates `%s's Logs`). -/
def apos : String := String.singleton (Char.ofNat 39)

/-- The lines `getHandler` writes before the `<ul>` list
(src/logs/server.go lines 131-140), in print order. -/
def pageHead (owner : String) : List String :=
  ["<html lang=\"en\">",
   "<head>",
   "<meta charset=\"UTF-8\" />",
   "<meta name=\"viewport\" content=\"width=device-width, initial-scale=1.0\" />",
   "<title>" ++ owner ++ apos ++ "s Logs</title>",
   "</head>",
   "<body>",
   "<div style=\"max-width: 960px; margin: 0 auto;\">",
   "<p><strong>" ++ owner ++ apos ++ "s Logs</strong></p>",
   "<p>Current TZ: " ++ timezone ++ ".</p>"]

/-- The footer line (src/logs/server.go line 152), reporting the number of
logs rendered and the elapsed wall-clock milliseconds. -/
def footerLine (n ms : Nat) : String :=
  "<p style=\"text-align: center;\">Rendered " ++ toString n ++ " logs in " ++
    toString ms ++ " ms.</p>"

/-- An HTTP response: status code, the Content-Type actually transmitted,
and the body as the list of lines written to the writer. -/
structure Response where
  status : Nat
  contentType : String
  body : List String
  deriving DecidableEq, Repr

/-- ASCII lower-casing of one character, as the sniffing table applies
before comparing against a signature. -/
def lowerChar (c : Char) : Char :=
  if 65 ≤ c.toNat ∧ c.toNat ≤ 90 then Char.ofNat (c.toNat + 32) else c

/-- Whether the first list starts with the (already lowercase) pattern,
comparing case-insensitively. -/
def charsStartWith : List Char → List Char → Bool
  | _, [] => true
  | [], _ :: _ => false
  | c :: cs, p :: ps => lowerChar c = p && charsStartWith cs ps

/-- Models the part of net/http content sniffing (`DetectContentType`)
relevant to this program: a body whose first bytes are a case-insensitive
`<html` tag followed by a space or `>` is sniffed as
`"text/html; charset=utf-8"`. The remaining signature table is collapsed to
`"application/octet-stream"`; none of this program's outputs reach it. -/
def htmlSig (s : String) : Bool :=
  charsStartWith s.data "<html ".data || charsStartWith s.data "<html>".data

/-- Content type chosen by net/http when the handler never set one before
the first body write: sniffed from the initial bytes. -/
def detectContentType (body : List String) : String :=
  match body with
  | [] => "text/plain; charset=utf-8"
  | line :: _ => if htmlSig line then "text/html; charset=utf-8"
                 else "application/octet-stream"

/-- Embeds `getHandler` (src/logs/server.go lines 124-157). `fetchOk` is
whether the database read succeeds. On failure, `http.Error` replies 500
with a `text/plain` content type (set before the write, hence effective).
On success the handler writes the page and only afterwards calls
`w.Header().Set("Content-Type", "text/html")` (line 156); net/http has
already flushed the headers at the first body write, so that call has no
effect on the wire and the transmitted content type is the sniffed one. -/
def getHandler (owner : String) (fetchOk : Bool) (store : List LogEntry)
    (ms : Nat) : Response :=
  if fetchOk then
    let logs := fetchLogs store
    let body := pageHead owner ++ ["<ul>"] ++ renderLogs 0 logs ++
      ["</ul>", footerLine logs.length ms, "</div>", "</body>", "</html>"]
    { status := 200, contentType := detectContentType body, body := body }
  else
    { status := 500, contentType := "text/plain; charset=utf-8",
      body := ["internal server error"] }

/-- A JSON value, as produced by a successful parse of the request body.
A request whose body is not well-formed JSON is modelled as carrying no
`Json` value at all (decoding fails before any value exists). -/
inductive Json where
  | null : Json
  | bool : Bool → Json
  | num : Int → Json
  | str : String → Json
  | arr : List Json → Json
  | obj : List (String × Json) → Json

/-- encoding/json's field-name folding: an incoming object key matches a
struct field name case-insensitively (Go prefers an exact match but also
accepts a case-insensitive one; each struct here has one field per folded
name, so the net effect is exactly case-insensitive matching). -/
def foldName (s : String) : List Char := s.data.map lowerChar

/-- Object-key lookup as encoding/json assigns struct fields: keys are
scanned in order and a later matching key overwrites an earlier one, so
the last key whose folded name equals the field's folded name wins. -/
def lookupField (fields : List (String × Json)) (name : String) : Option Json :=
  match fields with
  | [] => none
  | (k, v) :: rest =>
    match lookupField rest name with
    | some w => some w
    | none => if foldName k = foldName name then some v else none

/-- Embeds the anonymous `chat` struct of `telegramHandler`
(src/logs/server.go line 161). Field defaults are Go zero values. -/
structure Chat where
  id : Int := 0
  deriving DecidableEq, Repr

/-- Embeds the anonymous `from` struct (src/logs/server.go line 164);
`from` is a reserved word in Lean, hence the name `FromUser`. -/
structure FromUser where
  id : Int := 0
  isBot : Bool := false
  firstName : String := ""
  lastName : String := ""
  username : String := ""
  deriving DecidableEq, Repr

/-- Embeds the anonymous `message` struct (src/logs/server.go line 171). -/
structure Message where
  text : String := ""
  chat : Chat := {}
  fromUser : FromUser := {}
  deriving DecidableEq, Repr

/-- Embeds the anonymous `webhook` struct (src/logs/server.go line 176). -/
structure Webhook where
  message : Message := {}
  deriving DecidableEq, Repr

/-- encoding/json into a `string` field: an absent key or JSON `null`
leaves the zero value; a JSON string is taken verbatim; any other value is
an unmarshalling type error. -/
def decodeStringField : Option Json → Except String String
  | none => .ok ""
  | some .null => .ok ""
  | some (.str s) => .ok s
  | some _ => .error "json: cannot unmarshal value into field of type string"

/-- encoding/json into an `int` field (same absent/null conventions). -/
def decodeIntField : Option Json → Except String Int
  | none => .ok 0
  | some .null => .ok 0
  | some (.num n) => .ok n
  | some _ => .error "json: cannot unmarshal value into field of type int"

/-- encoding/json into a `bool` field (same absent/null conventions). -/
def decodeBoolField : Option Json → Except String Bool
  | none => .ok false
  | some .null => .ok false
  | some (.bool b) => .ok b
  | some _ => .error "json: cannot unmarshal value into field of type bool"

/-- Decoding into the `chat` struct: only a JSON object or `null` is
accepted; unknown keys are ignored. -/
def decodeChat : Json → Except String Chat
  | .null => .ok {}
  | .obj fields => do
    let i ← decodeIntField (lookupField fields "id")
    .ok { id := i }
  | _ => .error "json: cannot unmarshal value into field of type chat"

/-- Decoding the value at a `chat`-typed key: an absent key leaves the
zero value. -/
def decodeChatField (o : Option Json) : Except String Chat :=
  match o with
  | none => .ok {}
  | some v => decodeChat v

/-- Decoding into the `from` struct. -/
def decodeFromUser : Json → Except String FromUser
  | .null => .ok {}
  | .obj fields => do
    let i ← decodeIntField (lookupField fields "id")
    let b ← decodeBoolField (lookupField fields "is_bot")
    let fn ← decodeStringField (lookupField fields "first_name")
    let ln ← decodeStringField (lookupField fields "last_name")
    let u ← decodeStringField (lookupField fields "username")
    .ok { id := i, isBot := b, firstName := fn, lastName := ln, username := u }
  | _ => .error "json: cannot unmarshal value into field of type from"

/-- Decoding the value at a `from`-typed key: an absent key leaves the
zero value. -/
def decodeFromUserField (o : Option Json) : Except String FromUser :=
  match o with
  | none => .ok {}
  | some v => decodeFromUser v

/-- Decoding into the `message` struct; an absent sub-object leaves the
struct at its zero value. -/
def decodeMessage : Json → Except String Message
  | .null => .ok {}
  | .obj fields => do
    let t ← decodeStringField (lookupField fields "text")
    let c ← decodeChatField (lookupField fields "chat")
    let f ← decodeFromUserField (lookupField fields "from")
    .ok { text := t, chat := c, fromUser := f }
  | _ => .error "json: cannot unmarshal value into field of type message"

/-- Decoding the value at a `message`-typed key: an absent key leaves the
zero value. -/
def decodeMessageField (o : Option Json) : Except String Message :=
  match o with
  | none => .ok {}
  | some v => decodeMessage v

/-- Embeds `json.NewDecoder(r.Body).Decode(&wh)` for the `webhook` shape
(src/logs/server.go line 185): only a JSON object or `null` decodes; a
missing `message` key leaves the zero-valued struct. -/
def decodeWebhook : Json → Except String Webhook
  | .null => .ok {}
  | .obj fields => do
    let m ← decodeMessageField (lookupField fields "message")
    .ok { message := m }
  | _ => .error "json: cannot unmarshal value into type webhook"

/-- Outcome of one webhook request: the HTTP status replied (200 is Go's
implicit default when the handler returns without writing one) and the
store contents afterwards. -/
structure WhResult where
  status : Nat
  store : List LogEntry
  deriving DecidableEq, Repr

/-- Embeds `telegramHandler` (src/logs/server.go lines 179-197).
`key` is `r.URL.Query()["key"]`: `none` when the parameter is absent,
otherwise the list of supplied values. `body` is the parsed JSON value of
the request body, `none` when the body is not well-formed JSON. `now` is
the ingest-time clock reading and `insertOk` whether the database insert
succeeds. -/
def telegramHandler (secret uname : String) (now : DateTime) (insertOk : Bool)
    (store : List LogEntry) (key : Option (List String)) (body : Option Json) :
    WhResult :=
  match key with
  | none => { status := 401, store := store }
  | some [] => { status := 401, store := store }
  | some (k :: _) =>
    if k ≠ secret then { status := 401, store := store }
    else
      match body with
      | none => { status := 400, store := store }
      | some j =>
        match decodeWebhook j with
        | .error _ => { status := 400, store := store }
        | .ok wh =>
          if wh.message.fromUser.username ≠ uname then
            { status := 200, store := store }
          else if insertOk then
            { status := 200,
              store := insertLog store { ts := now, content := wh.message.text } }
          else { status := 500, store := store }

/-- Whether a JSON value carries a `message.from.username` key at all,
with each level matched case-insensitively exactly as the decoder matches
it (so a case-variant key such as `Username`, which Go would decode into
the field, counts as present). Used to state the missing-field claim. -/
def hasUsernamePath (j : Json) : Bool :=
  match j with
  | .obj fields =>
    match lookupField fields "message" with
    | some (.obj mf) =>
      match lookupField mf "from" with
      | some (.obj ff) => (lookupField ff "username").isSome
      | _ => false
    | _ => false
  | _ => false

/-- Embeds `existingLogs` of the migration utility (src/unnamed/part_002
lines 240-269): `SELECT ts, content FROM logs ORDER BY datetime(ts) ASC`
returns every source row oldest-first. -/
def fetchAscending (src : List LogEntry) : List LogEntry :=
  List.insertionSort ascLe src

/-- Final state of a migration run: the destination table contents and the
error the utility reported, if any. -/
structure MigrationResult where
  dest : List LogEntry
  err : Option String
  deriving DecidableEq, Repr

/-- Embeds the insertion loop of `insertLogs` (src/unnamed/part_002 lines
289-294): each entry is inserted in order; on the first failing insert the
loop returns the error at once, keeping the rows already inserted. `fails`
is the failure schedule of the destination database: whether the i-th
`db.Exec` (0-based) fails. -/
def insertLogsAux (fails : Nat → Bool) : Nat → List LogEntry → List LogEntry →
    MigrationResult
  | _, dest, [] => { dest := dest, err := none }
  | i, dest, l :: rest =>
    if fails i then { dest := dest, err := some "insert failed" }
    else insertLogsAux fails (i + 1) (dest ++ [l]) rest

/-- Embeds `insertLogs` (src/unnamed/part_002 lines 277-297) run against a
freshly created destination table (the utility is one-shot; `CREATE TABLE
IF NOT EXISTS` has just made the empty table). -/
def insertLogs (fails : Nat → Bool) (logs : List LogEntry) : MigrationResult :=
  insertLogsAux fails 0 [] logs

/-- Embeds `run` of the migration utility (src/unnamed/part_002 lines
299-305): fetch the source ascending, then insert into the destination. -/
def migrate (fails : Nat → Bool) (src : List LogEntry) : MigrationResult :=
  insertLogs fails (fetchAscending src)

/-! Theorems. -/

/-- C6: For every store state, the sequence of entries produced for
rendering (`fetchLogs`, the embedding of `fetchAllDescending`) is sorted in
non-increasing timestamp order, most recent first, and contains every
stored entry. -/
theorem C6_fetch_all_descending (store : List LogEntry) :
    List.Perm (fetchLogs store) store ∧
    List.Sorted descLe (fetchLogs store) ∧
    ∀ l ∈ store, l ∈ fetchLogs store :=
  ⟨List.perm_insertionSort descLe store,
   List.sorted_insertionSort descLe store,
   fun _ hl => (List.perm_insertionSort descLe store).mem_iff.mpr hl⟩

/-- C7: every successful rendering responds with status 200 and a
`text/html` content type (transmitted via net/http content sniffing of the
page's leading `<html` tag, the `Header().Set` on line 156 coming too late
to take effect). -/
theorem C7_content_type_html (owner : String) (store : List LogEntry) (ms : Nat) :
    (getHandler owner true store ms).status = 200 ∧
    (getHandler owner true store ms).contentType = "text/html; charset=utf-8" :=
  ⟨rfl, rfl⟩

/-- C8: with zero stored entries the fetch returns the empty sequence (not
an error), and the rendered page has an empty list (`<ul>` immediately
closed by `</ul>`) with a footer reporting `0` logs rendered. -/
theorem C8_empty_store (owner : String) (ms : Nat) :
    fetchLogs [] = [] ∧
    getHandler owner true [] ms =
      { status := 200, contentType := "text/html; charset=utf-8",
        body := pageHead owner ++
          ["<ul>", "</ul>",
           "<p style=\"text-align: center;\">Rendered 0 logs in " ++
             toString ms ++ " ms.</p>",
           "</div>", "</body>", "</html>"] } :=
  ⟨rfl, rfl⟩

/-- C1 (counter-evidence): the rendering loop keys its day separator on
`ts.Day()`, the day-of-month alone. Two consecutive entries on
2021-02-15 and 2021-01-15 — different calendar days in the display
timezone, same day-of-month — produce only the one leading separator:
no day-separator line is emitted between them, though the spec requires
one whenever the calendar day changes. -/
theorem C1_month_boundary_no_separator :
    renderLogs 0
      [{ ts := { year := 2021, month := 2, day := 15, hour := 10, minute := 0 },
         content := "feb" },
       { ts := { year := 2021, month := 1, day := 15, hour := 9, minute := 30 },
         content := "jan" }] =
      ["<p>2021-02-15</p>", "<li>10:00: feb</li>", "<li>09:30: jan</li>"] ∧
    formatDay { year := 2021, month := 2, day := 15, hour := 10, minute := 0 } ≠
      formatDay { year := 2021, month := 1, day := 15, hour := 9, minute := 30 } :=
  ⟨rfl, by decide⟩

/-- C4: any request whose `key` query parameter is absent, empty, or not
exactly the configured secret is answered 401 with the store untouched,
whatever the body holds (the body is never examined). -/
theorem C4_unauthorized_key (secret uname : String) (now : DateTime)
    (insertOk : Bool) (store : List LogEntry) (key : Option (List String))
    (body : Option Json)
    (hbad : ∀ k rest, key = some (k :: rest) → k ≠ secret) :
    telegramHandler secret uname now insertOk store key body =
      { status := 401, store := store } := by
  match key with
  | none => rfl
  | some [] => rfl
  | some (k :: rest) =>
    have hk : k ≠ secret := hbad k rest rfl
    simp [telegramHandler, hk]

/-- Witness for C4 at a concrete request: missing key parameter, body
present and well-formed. -/
theorem C4_unauthorized_key_witness :
    telegramHandler "s3cret" "alice"
      { year := 2021, month := 5, day := 3, hour := 12, minute := 0 } true
      [] none (some (.obj [])) =
      { status := 401, store := [] } :=
  C4_unauthorized_key "s3cret" "alice"
    { year := 2021, month := 5, day := 3, hour := 12, minute := 0 } true
    [] none (some (.obj [])) (fun _ _ h => by cases h)

/-- C2: a request whose first `key` value equals the secret, whose body
decodes to webhook `wh`, and whose sender username equals the configured
username inserts exactly one entry — content the delivered text, timestamp
the ingest-time clock — and returns the default success status. -/
theorem C2_valid_ingest (secret uname : String) (now : DateTime)
    (store : List LogEntry) (rest : List String) (j : Json) (wh : Webhook)
    (hdec : decodeWebhook j = .ok wh)
    (huser : wh.message.fromUser.username = uname) :
    telegramHandler secret uname now true store (some (secret :: rest)) (some j) =
      { status := 200,
        store := store ++ [{ ts := now, content := wh.message.text }] } := by
  simp [telegramHandler, hdec, huser, insertLog]

/-- Witness for C2 at a concrete authorized delivery. -/
theorem C2_valid_ingest_witness :
    telegramHandler "s3cret" "alice"
      { year := 2021, month := 5, day := 3, hour := 12, minute := 0 } true
      [] (some ["s3cret"])
      (some (.obj [("message", .obj
        [("text", .str "hello"),
         ("from", .obj [("username", .str "alice")])])])) =
      { status := 200,
        store := [{ ts := { year := 2021, month := 5, day := 3, hour := 12,
                            minute := 0 },
                    content := "hello" }] } :=
  C2_valid_ingest "s3cret" "alice"
    { year := 2021, month := 5, day := 3, hour := 12, minute := 0 }
    [] []
    (.obj [("message", .obj
      [("text", .str "hello"),
       ("from", .obj [("username", .str "alice")])])])
    { message := { text := "hello",
                   fromUser := { username := "alice" } } }
    rfl rfl

/-- C5: a request with a correct key and a decodable body whose sender
username differs from the configured one (string inequality, hence
case-sensitive) inserts nothing and is answered with the default success
status, not an error. -/
theorem C5_unknown_sender_ignored (secret uname : String) (now : DateTime)
    (insertOk : Bool) (store : List LogEntry) (rest : List String) (j : Json)
    (wh : Webhook) (hdec : decodeWebhook j = .ok wh)
    (hne : wh.message.fromUser.username ≠ uname) :
    telegramHandler secret uname now insertOk store (some (secret :: rest)) (some j) =
      { status := 200, store := store } := by
  simp [telegramHandler, hdec, hne]

/-- Witness for C5: sender `Alice` when the allow-list holds `alice`
(the case-sensitive comparison rejects it). -/
theorem C5_unknown_sender_ignored_witness :
    telegramHandler "s3cret" "alice"
      { year := 2021, month := 5, day := 3, hour := 12, minute := 0 } true
      [] (some ["s3cret"])
      (some (.obj [("message", .obj
        [("text", .str "hi"),
         ("from", .obj [("username", .str "Alice")])])])) =
      { status := 200, store := [] } :=
  C5_unknown_sender_ignored "s3cret" "alice"
    { year := 2021, month := 5, day := 3, hour := 12, minute := 0 } true
    [] []
    (.obj [("message", .obj
      [("text", .str "hi"),
       ("from", .obj [("username", .str "Alice")])])])
    { message := { text := "hi",
                   fromUser := { username := "Alice" } } }
    rfl (by decide)

/-- A `from` object (or absent/null value) without a `username` key
decodes to the zero-valued username `""`. -/
theorem decodeFromUserField_missing_username (o : Option Json) (f : FromUser)
    (h : decodeFromUserField o = .ok f)
    (hno : ∀ ff, o = some (.obj ff) → lookupField ff "username" = none) :
    f.username = "" := by
  cases o with
  | none => cases h; rfl
  | some v =>
    cases v with
    | null => cases h; rfl
    | bool b => cases h
    | num n => cases h
    | str s => cases h
    | arr l => cases h
    | obj ff =>
      have hu : lookupField ff "username" = none := hno ff rfl
      have hu2 : decodeStringField (lookupField ff "username") = Except.ok "" := by
        rw [hu]; rfl
      simp only [decodeFromUserField, decodeFromUser, bind, Except.bind, hu2] at h
      cases hi : decodeIntField (lookupField ff "id") with
      | error e => rw [hi] at h; cases h
      | ok i =>
        rw [hi] at h
        cases hb : decodeBoolField (lookupField ff "is_bot") with
        | error e => rw [hb] at h; cases h
        | ok b =>
          rw [hb] at h
          cases hfn : decodeStringField (lookupField ff "first_name") with
          | error e => rw [hfn] at h; cases h
          | ok fn =>
            rw [hfn] at h
            cases hln : decodeStringField (lookupField ff "last_name") with
            | error e => rw [hln] at h; cases h
            | ok ln =>
              rw [hln] at h
              cases h; rfl

/-- A `message` object whose `from` value (if an object at all) lacks a
`username` key decodes with the zero-valued username. -/
theorem decodeMessageField_missing_username (o : Option Json) (m : Message)
    (h : decodeMessageField o = .ok m)
    (hno : ∀ mf ff, o = some (.obj mf) →
      lookupField mf "from" = some (.obj ff) →
      lookupField ff "username" = none) :
    m.fromUser.username = "" := by
  cases o with
  | none => cases h; rfl
  | some v =>
    cases v with
    | null => cases h; rfl
    | bool b => cases h
    | num n => cases h
    | str s => cases h
    | arr l => cases h
    | obj mf =>
      simp only [decodeMessageField, decodeMessage, bind, Except.bind] at h
      cases ht : decodeStringField (lookupField mf "text") with
      | error e => rw [ht] at h; cases h
      | ok t =>
        rw [ht] at h
        cases hc : decodeChatField (lookupField mf "chat") with
        | error e => rw [hc] at h; cases h
        | ok c =>
          rw [hc] at h
          cases hf : decodeFromUserField (lookupField mf "from") with
          | error e => rw [hf] at h; cases h
          | ok f =>
            rw [hf] at h
            cases h
            exact decodeFromUserField_missing_username _ _ hf
              (fun ff hff => hno mf ff rfl hff)

/-- A body that decodes successfully but carries no `message.from.username`
key decodes to the zero-valued username `""` (Go's encoding/json leaves
absent fields at their zero value). -/
theorem decode_missing_username (j : Json) (wh : Webhook)
    (hdec : decodeWebhook j = .ok wh) (hpath : hasUsernamePath j = false) :
    wh.message.fromUser.username = "" := by
  cases j with
  | null => cases hdec; rfl
  | bool b => cases hdec
  | num n => cases hdec
  | str s => cases hdec
  | arr l => cases hdec
  | obj fields =>
    simp only [decodeWebhook, bind, Except.bind] at hdec
    cases hm : decodeMessageField (lookupField fields "message") with
    | error e => rw [hm] at hdec; cases hdec
    | ok m =>
      rw [hm] at hdec
      cases hdec
      refine decodeMessageField_missing_username _ _ hm ?_
      intro mf ff hmf hff
      simp only [hasUsernamePath, hmf, hff] at hpath
      cases hlu : lookupField ff "username" with
      | none => rfl
      | some u => rw [hlu] at hpath; simp at hpath

/-- C10: a correct-key request whose body is well-formed JSON that decodes
but lacks the `message.from.username` field (or an enclosing field) —
lacking meaning no key the decoder's case-insensitive matching would
populate the field from — is treated exactly like a non-allowlisted
sender: default success status and no insertion, provided the configured
username is non-empty. -/
theorem C10_missing_username_ignored (secret uname : String) (now : DateTime)
    (insertOk : Bool) (store : List LogEntry) (rest : List String) (j : Json)
    (wh : Webhook) (hdec : decodeWebhook j = .ok wh)
    (hpath : hasUsernamePath j = false) (hu : uname ≠ "") :
    telegramHandler secret uname now insertOk store (some (secret :: rest)) (some j) =
      { status := 200, store := store } := by
  have hz : wh.message.fromUser.username = "" :=
    decode_missing_username j wh hdec hpath
  have hne : wh.message.fromUser.username ≠ uname := by
    rw [hz]; exact fun h => hu h.symm
  simp [telegramHandler, hdec, hne]

/-- Witness for C10: `{"message":{"text":"hi"}}` — no `from` object at
all — with a correct key and allow-list `alice`. -/
theorem C10_missing_username_ignored_witness :
    telegramHandler "s3cret" "alice"
      { year := 2021, month := 5, day := 3, hour := 12, minute := 0 } true
      [] (some ["s3cret"])
      (some (.obj [("message", .obj [("text", .str "hi")])])) =
      { status := 200, store := [] } :=
  C10_missing_username_ignored "s3cret" "alice"
    { year := 2021, month := 5, day := 3, hour := 12, minute := 0 } true
    [] []
    (.obj [("message", .obj [("text", .str "hi")])])
    { message := { text := "hi" } }
    rfl rfl (by decide)

/-- A run of the insertion loop that reports no error has inserted every
entry it was given, in order, after those already present. -/
theorem insertLogsAux_ok_dest (fails : Nat → Bool) :
    ∀ (l : List LogEntry) (i : Nat) (acc : List LogEntry),
      (insertLogsAux fails i acc l).err = none →
      (insertLogsAux fails i acc l).dest = acc ++ l
  | [], _, acc, _ => by simp [insertLogsAux]
  | l :: rest, i, acc, h => by
    by_cases hf : fails i
    · simp [insertLogsAux, hf] at h
    · have hrec := insertLogsAux_ok_dest fails rest (i + 1) (acc ++ [l])
        (by simpa [insertLogsAux, hf] using h)
      simpa [insertLogsAux, hf] using hrec

/-- C3: a migration run that completes without error leaves the
destination with exactly as many entries as the source, the same multiset
of `(timestamp, content)` pairs, in ascending chronological order. -/
theorem C3_migration_round_trip (src : List LogEntry) (fails : Nat → Bool)
    (h : (migrate fails src).err = none) :
    (migrate fails src).dest.length = src.length ∧
    List.Perm (migrate fails src).dest src ∧
    List.Sorted ascLe (migrate fails src).dest := by
  have hd : (migrate fails src).dest = fetchAscending src := by
    have := insertLogsAux_ok_dest fails (fetchAscending src) 0 []
      (by simpa [migrate, insertLogs] using h)
    simpa [migrate, insertLogs] using this
  rw [hd]
  exact ⟨(List.perm_insertionSort ascLe src).length_eq,
         List.perm_insertionSort ascLe src,
         List.sorted_insertionSort ascLe src⟩

/-- Witness for C3: two out-of-order source entries, no insert failure. -/
theorem C3_migration_round_trip_witness :
    (migrate (fun _ => false)
      [mkEntry (mkDT 2021 5 3 12 0) "later",
       mkEntry (mkDT 2021 5 2 8 15) "earlier"]).err = none ∧
    ((migrate (fun _ => false)
      [mkEntry (mkDT 2021 5 3 12 0) "later",
       mkEntry (mkDT 2021 5 2 8 15) "earlier"]).dest.length =
      [mkEntry (mkDT 2021 5 3 12 0) "later",
       mkEntry (mkDT 2021 5 2 8 15) "earlier"].length ∧
     List.Perm (migrate (fun _ => false)
      [mkEntry (mkDT 2021 5 3 12 0) "later",
       mkEntry (mkDT 2021 5 2 8 15) "earlier"]).dest
      [mkEntry (mkDT 2021 5 3 12 0) "later",
       mkEntry (mkDT 2021 5 2 8 15) "earlier"] ∧
     List.Sorted ascLe (migrate (fun _ => false)
      [mkEntry (mkDT 2021 5 3 12 0) "later",
       mkEntry (mkDT 2021 5 2 8 15) "earlier"]).dest) :=
  ⟨rfl,
   C3_migration_round_trip
     [mkEntry (mkDT 2021 5 3 12 0) "later",
      mkEntry (mkDT 2021 5 2 8 15) "earlier"]
     (fun _ => false) rfl⟩

/-- If the loop's first failing insert is the `(k+1)`-st entry offered
(0-based index `k` within this call, global index `i + k`), the loop stops
there: the destination keeps the entries before it, and the error is
reported. -/
theorem insertLogsAux_first_failure (fails : Nat → Bool) :
    ∀ (l : List LogEntry) (i k : Nat) (acc : List LogEntry),
      k < l.length → fails (i + k) = true →
      (∀ j, j < k → fails (i + j) = false) →
      insertLogsAux fails i acc l =
        { dest := acc ++ l.take k, err := some "insert failed" }
  | [], _, k, _, hk, _, _ => absurd hk (by simp)
  | l :: rest, i, 0, acc, _, hf, _ => by
    have hf0 : fails i = true := by simpa using hf
    simp [insertLogsAux, hf0]
  | l :: rest, i, k + 1, acc, hk, hf, hb => by
    have h0 : fails i = false := by simpa using hb 0 (Nat.succ_pos k)
    have hf1 : fails (i + 1 + k) = true := by
      have : i + 1 + k = i + (k + 1) := by omega
      rw [this]; exact hf
    have hb1 : ∀ j, j < k → fails (i + 1 + j) = false := fun j hj => by
      have : i + 1 + j = i + (j + 1) := by omega
      rw [this]; exact hb (j + 1) (Nat.succ_lt_succ hj)
    have hrec := insertLogsAux_first_failure fails rest (i + 1) k (acc ++ [l])
      (Nat.lt_of_succ_lt_succ hk) hf1 hb1
    simp [insertLogsAux, h0, hrec]

/-- C9: when the K-th destination insert is the first to fail
(1 ≤ K ≤ N), the migration reports the failure and the destination retains
exactly the K-1 entries already inserted, in source ascending order. -/
theorem C9_migration_stops_at_failure (src : List LogEntry) (fails : Nat → Bool)
    (K : Nat) (hK : 1 ≤ K) (hKN : K ≤ src.length)
    (hf : fails (K - 1) = true)
    (hb : ∀ j, j < K - 1 → fails j = false) :
    (migrate fails src).err = some "insert failed" ∧
    (migrate fails src).dest = (fetchAscending src).take (K - 1) := by
  have hlen : (fetchAscending src).length = src.length :=
    (List.perm_insertionSort ascLe src).length_eq
  have hklt : K - 1 < (fetchAscending src).length := by omega
  have hrun := insertLogsAux_first_failure fails (fetchAscending src) 0 (K - 1) []
    hklt (by simpa using hf) (fun j hj => by simpa using hb j hj)
  constructor <;> simp [migrate, insertLogs, hrun]

/-- Witness for C9: three source entries, the second insert (K = 2) fails;
the destination keeps exactly the first (earliest) entry. -/
theorem C9_migration_stops_at_failure_witness :
    (1 ≤ 2 ∧
     2 ≤ [mkEntry (mkDT 2021 5 3 12 0) "c",
          mkEntry (mkDT 2021 5 1 7 5) "a",
          mkEntry (mkDT 2021 5 2 8 15) "b"].length) ∧
    ((migrate (fun n => n == 1)
      [mkEntry (mkDT 2021 5 3 12 0) "c",
       mkEntry (mkDT 2021 5 1 7 5) "a",
       mkEntry (mkDT 2021 5 2 8 15) "b"]).err = some "insert failed" ∧
     (migrate (fun n => n == 1)
      [mkEntry (mkDT 2021 5 3 12 0) "c",
       mkEntry (mkDT 2021 5 1 7 5) "a",
       mkEntry (mkDT 2021 5 2 8 15) "b"]).dest =
      (fetchAscending
       [mkEntry (mkDT 2021 5 3 12 0) "c",
        mkEntry (mkDT 2021 5 1 7 5) "a",
        mkEntry (mkDT 2021 5 2 8 15) "b"]).take (2 - 1)) :=
  ⟨⟨by decide, by decide⟩,
   C9_migration_stops_at_failure
     [mkEntry (mkDT 2021 5 3 12 0) "c",
      mkEntry (mkDT 2021 5 1 7 5) "a",
      mkEntry (mkDT 2021 5 2 8 15) "b"]
     (fun n => n == 1) 2 (by decide) (by decide) (by decide)
     (fun j hj => by rw [Nat.lt_one_iff.mp hj]; rfl)⟩

end Logs
